import Mathlib

/-!
Verification of the Sinter operator (`sinter_operator/sinter_operator.py`).

The Python module is embedded shallowly:

* JSON values decoded by `json.loads` become the inductive type `Json`.
* Python exceptions become the inductive type `PyError`; `dict[key]`
  (`KeyError`/`TypeError`) becomes `Json.getItem`.
* The effects of a method — HTTP requests issued by the `requests` library,
  `time.sleep`, `print` — are modelled by the monad `M`: a computation reads a
  JSON decoder (standing for `json.loads`) and a finite oracle of pending HTTP
  responses, consumes one response per request, and records an `Event` trace
  (requests, sleeps, log lines) while either producing a value or raising a
  `PyError`.
-/

/-- A decoded JSON document, as `json.loads` would produce it. -/
inductive Json : Type where
  | null : Json
  | bool : Bool → Json
  | num : Int → Json
  | str : String → Json
  | arr : List Json → Json
  | obj : List (String × Json) → Json
deriving Repr

/-- Python exceptions raised by the module, plus two artifacts of the finite
model: `oracleExhausted` (the response oracle ran out; a real HTTP call always
gets some response) and `fuelExhausted` (the fuel bound of the `while True`
poll loop was reached). Neither artifact is a `RuntimeError`, so neither is
caught by the `except RuntimeError` handler. -/
inductive PyError : Type where
  | runtimeError : String → PyError
  | airflowException : String → PyError
  | keyError : String → PyError
  | typeError : String → PyError
  | indexError : PyError
  | oracleExhausted : PyError
  | fuelExhausted : PyError
deriving Repr, DecidableEq

/-- An HTTP response: status code and raw body text. -/
structure HttpResponse : Type where
  status_code : Nat
  content : String
deriving Repr, DecidableEq

/-- Observable effects of the module: HTTP requests, `time.sleep`, `print`. -/
inductive Event : Type where
  | httpGet : String → Event
  | httpPost : String → Event
  | sleep : Nat → Event
  | log : String → Event
deriving Repr, DecidableEq

/-- Python `dict[key]` on a decoded JSON value: a `KeyError` when the key is
absent from an object, a `TypeError` when the value is not an object. -/
def Json.getItem : Json → String → Except PyError Json
  | Json.obj fields, k =>
    match fields.lookup k with
    | some v => Except.ok v
    | none => Except.error (PyError.keyError k)
  | _, k => Except.error (PyError.typeError k)

/-- Python iteration `for d in j` over a decoded JSON value: an array yields
its elements, a dict yields its keys, a string yields its characters; other
values are not iterable. -/
def Json.pyIter : Json → Except PyError (List Json)
  | Json.arr xs => Except.ok xs
  | Json.obj fields => Except.ok (fields.map (fun f => Json.str f.1))
  | Json.str s => Except.ok (s.toList.map (fun c => Json.str (String.singleton c)))
  | _ => Except.error (PyError.typeError "not iterable")

mutual

/-- Python `repr` of a decoded JSON value. -/
def Json.pyRepr : Json → String
  | Json.null => "None"
  | Json.bool true => "True"
  | Json.bool false => "False"
  | Json.num n => toString n
  | Json.str s => "\x27" ++ s ++ "\x27"
  | Json.arr xs => "[" ++ Json.pyReprList xs ++ "]"
  | Json.obj fields => "\x7b" ++ Json.pyReprFields fields ++ "\x7d"

/-- Comma-separated `repr` of list elements. -/
def Json.pyReprList : List Json → String
  | [] => ""
  | [x] => Json.pyRepr x
  | x :: xs => Json.pyRepr x ++ ", " ++ Json.pyReprList xs

/-- Comma-separated `repr` of dict entries. -/
def Json.pyReprFields : List (String × Json) → String
  | [] => ""
  | [f] => "\x27" ++ f.1 ++ "\x27: " ++ Json.pyRepr f.2
  | f :: fs => "\x27" ++ f.1 ++ "\x27: " ++ Json.pyRepr f.2 ++ ", " ++ Json.pyReprFields fs

end

/-- Python `==` between a decoded JSON value and a string (as in
`d['name'] == job_name`): true exactly when the value is that string; a value
of any other type compares unequal to a string without raising. -/
def Json.pyEqStr : Json → String → Bool
  | Json.str s, t => s == t
  | _, _ => false

/-- Python `str`, as used by `'%s' % x` and `'...{}'.format(x)`. -/
def Json.pyStr : Json → String
  | Json.str s => s
  | j => Json.pyRepr j

/-- The effect monad of the embedding. A computation receives the JSON decoder
and the oracle of pending HTTP responses; it returns a value or a raised
`PyError`, the remaining oracle, and the trace of events it performed. -/
def M (α : Type) : Type :=
  (String → Json) → List HttpResponse → Except PyError α × List HttpResponse × List Event

/-- Monadic `pure`: no effect, no response consumed. -/
def M.pure {α : Type} (a : α) : M α := fun _ rs => (Except.ok a, rs, [])

/-- Sequencing: traces concatenate; a raised error short-circuits. -/
def M.bind {α β : Type} (x : M α) (f : α → M β) : M β := fun jl rs =>
  match x jl rs with
  | (Except.ok a, rs1, tr) =>
    match f a jl rs1 with
    | (r, rs2, tr2) => (r, rs2, tr ++ tr2)
  | (Except.error e, rs1, tr) => (Except.error e, rs1, tr)

instance instMonadM : Monad M where
  pure := M.pure
  bind := M.bind

/-- Python `raise e`. -/
def M.raise {α : Type} (e : PyError) : M α := fun _ rs => (Except.error e, rs, [])

/-- Record one event. -/
def M.emit (ev : Event) : M Unit := fun _ rs => (Except.ok (), rs, [ev])

/-- Perform one HTTP request (recorded as `ev`) and receive the next pending
response from the oracle. -/
def M.nextResponse (ev : Event) : M HttpResponse := fun _ rs =>
  match rs with
  | [] => (Except.error PyError.oracleExhausted, [], [ev])
  | r :: rest => (Except.ok r, rest, [ev])

/-- Python `json.loads` applied to a body, via the decoder of the environment. -/
def M.parseJson (s : String) : M Json := fun jl rs => (Except.ok (jl s), rs, [])

/-- Lift a pure Python expression that may raise (e.g. `d['name']`). -/
def M.liftExcept {α : Type} : Except PyError α → M α
  | Except.ok a => M.pure a
  | Except.error e => M.raise e

/-- Python `try: body except RuntimeError as e: handler(e)` — only
`RuntimeError` is caught, everything else propagates. -/
def M.tryCatchRuntime {α : Type} (body : M α) (handler : String → M α) : M α := fun jl rs =>
  match body jl rs with
  | (Except.ok a, rs1, tr) => (Except.ok a, rs1, tr)
  | (Except.error (PyError.runtimeError msg), rs1, tr) =>
    match handler msg jl rs1 with
    | (r, rs2, tr2) => (r, rs2, tr ++ tr2)
  | (Except.error e, rs1, tr) => (Except.error e, rs1, tr)

/-! The `RunStatus` class: named status codes and their label dict. -/

namespace RunStatus

def queued : Int := 1
def dequeued : Int := 2
def running : Int := 3
def success : Int := 10
def error : Int := 20
def cancelled : Int := 30

/-- The `LOOKUP` dict, keys in source order. -/
def LOOKUP : List (Int × String) :=
  [(queued, "Queued"), (dequeued, "Queued"), (running, "Running"),
   (success, "Success"), (error, "Error"), (cancelled, "Cancelled")]

/-- Method `RunStatus.lookup`: `LOOKUP.get(status, 'Unknown')`. -/
def lookup (status : Int) : String :=
  match LOOKUP.lookup status with
  | some s => s
  | none => "Unknown"

/-- Classification `RunStatus.lookup` applied to a decoded JSON value (as in
`RunStatus.lookup(job['status'])`): a non-integer value misses every key of
the int-keyed dict and yields the default. -/
def lookupJson : Json → String
  | Json.num n => lookup n
  | _ => "Unknown"

end RunStatus

/-- The `Sinter` API-client class: constructor fields. `api_base` is the fixed
constant assigned in `__init__`. -/
structure Sinter : Type where
  account_id : String
  api_token : String

def Sinter.api_base (_ : Sinter) : String := "https://cloud.getdbt.com/api/v1"

/-- Method `Sinter._get`: one GET request; 200 yields the decoded body, anything else
raises `RuntimeError(response.content)`. -/
def Sinter._get (s : Sinter) (url_suffix : String) : M Json := do
  let url := s.api_base ++ url_suffix
  let response ← M.nextResponse (Event.httpGet url)
  if response.status_code = 200 then
    M.parseJson response.content
  else
    M.raise (PyError.runtimeError response.content)

/-- Method `Sinter._post`: one POST request; 201 yields the decoded body, anything
else raises `RuntimeError(response.content)`. -/
def Sinter._post (s : Sinter) (url_suffix : String) : M Json := do
  let url := s.api_base ++ url_suffix
  let response ← M.nextResponse (Event.httpPost url)
  if response.status_code = 201 then
    M.parseJson response.content
  else
    M.raise (PyError.runtimeError response.content)

/-- Method `Sinter.list_projects`: GET, then `['data']`. -/
def Sinter.list_projects (s : Sinter) : M Json := do
  let body ← s._get ("/accounts/" ++ s.account_id ++ "/projects/")
  M.liftExcept (body.getItem "data")

/-- Method `Sinter.get_project`: GET, then `['data']`. -/
def Sinter.get_project (s : Sinter) (project_id : String) : M Json := do
  let body ← s._get ("/accounts/" ++ s.account_id ++ "/projects/" ++ project_id ++ "/")
  M.liftExcept (body.getItem "data")

/-- Method `Sinter.list_job_definitions`: GET, whole decoded body (no `['data']`). -/
def Sinter.list_job_definitions (s : Sinter) (project_id : String) : M Json :=
  s._get ("/accounts/" ++ s.account_id ++ "/projects/" ++ project_id ++ "/definitions/")

/-- Method `Sinter.get_job_run`: GET of one run. `job_id` arrives as the decoded JSON
value `trigger_resp['id']` and is formatted into the URL by `%s`. -/
def Sinter.get_job_run (s : Sinter) (project_id : String) (job_id : Json) : M Json :=
  s._get ("/accounts/" ++ s.account_id ++ "/projects/" ++ project_id ++ "/runs/" ++
    job_id.pyStr ++ "/")

/-- Method `Sinter.trigger_job_run`: POST creating a run; `definition_id` is the
decoded JSON value `job_def['id']`. -/
def Sinter.trigger_job_run (s : Sinter) (project_id : String) (definition_id : Json) : M Json :=
  s._post ("/accounts/" ++ s.account_id ++ "/projects/" ++ project_id ++ "/definitions/" ++
    definition_id.pyStr ++ "/runs/")

/-- The log line printed by `try_get_job_run` on a caught `RuntimeError`. -/
def Sinter.tryGetLogMsg (job_id : Json) : String :=
  "Encountered a runtime error while fetching status for " ++ job_id.pyStr

/-- The message of the `RuntimeError` raised when `try_get_job_run` exhausts
its attempts: `"Too many failures ({}) while querying for job status".format(job_id)`. -/
def Sinter.tooManyFailuresMsg (job_id : Json) : String :=
  "Too many failures (" ++ job_id.pyStr ++ ") while querying for job status"

/-- Method `Sinter.try_get_job_run`: up to `max_tries` (default 3) attempts at
`get_job_run`; each caught `RuntimeError` logs and sleeps 10 seconds, then the
loop continues; falling off the loop raises `RuntimeError` with
`tooManyFailuresMsg`. -/
def Sinter.try_get_job_run (s : Sinter) (project_id : String) (job_id : Json)
    (max_tries : Nat := 3) : M Json :=
  match max_tries with
  | 0 => M.raise (PyError.runtimeError (Sinter.tooManyFailuresMsg job_id))
  | Nat.succ n =>
    M.tryCatchRuntime (s.get_job_run project_id job_id) (fun _e => do
      M.emit (Event.log (Sinter.tryGetLogMsg job_id))
      M.emit (Event.sleep 10)
      s.try_get_job_run project_id job_id n)

/-- The log line printed by each iteration of `block_until_complete`. -/
def Sinter.pollLogMsg (job_id : Json) (status_name : String) : String :=
  "JOB: " ++ job_id.pyStr ++ ", STATUS: " ++ status_name

/-- Body of the `while True` loop of `block_until_complete`, with fuel: fetch
(with bounded retry), classify `job['status']`, log; return the run payload on
a terminal status, else sleep 30 seconds and loop. -/
def Sinter.blockUntilCompleteFuel (s : Sinter) (project_id : String) (job_id : Json) :
    Nat → M Json
  | 0 => M.raise PyError.fuelExhausted
  | Nat.succ n => do
    let job ← s.try_get_job_run project_id job_id
    let statusVal ← M.liftExcept (job.getItem "status")
    let status_name := RunStatus.lookupJson statusVal
    M.emit (Event.log (Sinter.pollLogMsg job_id status_name))
    if status_name ∈ (["Success", "Error", "Cancelled"] : List String) then
      M.pure job
    else do
      M.emit (Event.sleep 30)
      s.blockUntilCompleteFuel project_id job_id n

/-- Method `Sinter.block_until_complete`. The `while True` loop needs no fuel bound
of its own: every completed iteration consumes at least one oracle response,
so `rs.length + 1` units of fuel can never run out before the oracle does. -/
def Sinter.block_until_complete (s : Sinter) (project_id : String) (job_id : Json) : M Json :=
  fun jl rs => s.blockUntilCompleteFuel project_id job_id (rs.length + 1) jl rs

/-- The list comprehension `[d for d in definitions if d['name'] == job_name]`:
`d['name']` is evaluated left to right and may raise. -/
def Sinter.filterDefsByName (job_name : String) : List Json → Except PyError (List Json)
  | [] => Except.ok []
  | d :: ds => do
    let nm ← d.getItem "name"
    let rest ← Sinter.filterDefsByName job_name ds
    if nm.pyEqStr job_name then
      Except.ok (d :: rest)
    else
      Except.ok rest

/-- Method `Sinter.run_job`: list definitions, filter by name (must match exactly
one), trigger a run of the single match, poll it to completion, and return the
run payload when the final status classifies as `Success`, else raise. The
`[]` branch models `job_defs[0]`; it is unreachable once `len(job_defs) == 1`. -/
def Sinter.run_job (s : Sinter) (project_id : String) (job_name : String) : M Json := do
  let definitions ← s.list_job_definitions project_id
  let ds ← M.liftExcept definitions.pyIter
  let job_defs ← M.liftExcept (Sinter.filterDefsByName job_name ds)
  if job_defs.length ≠ 1 then
    M.raise (PyError.airflowException
      (toString job_defs.length ++ " jobs found for " ++ job_name))
  else
    match job_defs with
    | [] => M.raise PyError.indexError
    | job_def :: _ => do
      let defId ← M.liftExcept (job_def.getItem "id")
      let trigger_resp ← s.trigger_job_run project_id defId
      let job_id ← M.liftExcept (trigger_resp.getItem "id")
      let job ← s.block_until_complete project_id job_id
      let statusVal ← M.liftExcept (job.getItem "status")
      let status_name := RunStatus.lookupJson statusVal
      if status_name = "Success" then
        M.pure job
      else
        M.raise (PyError.airflowException ("Run failed with status: " ++ status_name))

/-! Unfolding lemmas for the effect monad. -/

theorem M.bind_apply {α β : Type} (x : M α) (f : α → M β) (jl : String → Json)
    (rs : List HttpResponse) :
    (x >>= f) jl rs =
      match x jl rs with
      | (Except.ok a, rs1, tr) =>
        match f a jl rs1 with
        | (r, rs2, tr2) => (r, rs2, tr ++ tr2)
      | (Except.error e, rs1, tr) => (Except.error e, rs1, tr) := rfl

theorem M.pure_apply {α : Type} (a : α) (jl : String → Json) (rs : List HttpResponse) :
    (Pure.pure a : M α) jl rs = (Except.ok a, rs, []) := rfl

/-- Evaluation of `_get` on a nonempty oracle: consumes exactly the head response and
performs exactly one GET; 200 decodes the body, anything else raises
`RuntimeError` carrying the raw body. -/
theorem Sinter._get_apply (s : Sinter) (sfx : String) (jl : String → Json)
    (r : HttpResponse) (rs : List HttpResponse) :
    (s._get sfx) jl (r :: rs) =
      ((if r.status_code = 200 then Except.ok (jl r.content)
        else Except.error (PyError.runtimeError r.content)), rs,
       [Event.httpGet (s.api_base ++ sfx)]) := by
  by_cases h : r.status_code = 200 <;>
    simp [Sinter._get, M.bind_apply, M.nextResponse, M.parseJson, M.raise, h]

/-- Evaluation of `_post` on a nonempty oracle, the same with expected status 201. -/
theorem Sinter._post_apply (s : Sinter) (sfx : String) (jl : String → Json)
    (r : HttpResponse) (rs : List HttpResponse) :
    (s._post sfx) jl (r :: rs) =
      ((if r.status_code = 201 then Except.ok (jl r.content)
        else Except.error (PyError.runtimeError r.content)), rs,
       [Event.httpPost (s.api_base ++ sfx)]) := by
  by_cases h : r.status_code = 201 <;>
    simp [Sinter._post, M.bind_apply, M.nextResponse, M.parseJson, M.raise, h]

/-- Whatever the oracle, a `_get` call records exactly one GET event. -/
theorem Sinter._get_trace (s : Sinter) (sfx : String) (jl : String → Json)
    (rs : List HttpResponse) :
    ((s._get sfx) jl rs).2.2 = [Event.httpGet (s.api_base ++ sfx)] := by
  cases rs with
  | nil => simp [Sinter._get, M.bind_apply, M.nextResponse]
  | cons r rest => rw [Sinter._get_apply]

/-- Whatever the oracle, a `_post` call records exactly one POST event. -/
theorem Sinter._post_trace (s : Sinter) (sfx : String) (jl : String → Json)
    (rs : List HttpResponse) :
    ((s._post sfx) jl rs).2.2 = [Event.httpPost (s.api_base ++ sfx)] := by
  cases rs with
  | nil => simp [Sinter._post, M.bind_apply, M.nextResponse]
  | cons r rest => rw [Sinter._post_apply]

/-- The URL of a `get_job_run` request. -/
def Sinter.getRunUrl (s : Sinter) (project_id : String) (job_id : Json) : String :=
  s.api_base ++ ("/accounts/" ++ s.account_id ++ "/projects/" ++ project_id ++ "/runs/" ++
    job_id.pyStr ++ "/")

/-- Evaluation of `get_job_run` on a nonempty oracle, stated with the run URL. -/
theorem Sinter.get_job_run_apply (s : Sinter) (project_id : String) (job_id : Json)
    (jl : String → Json) (r : HttpResponse) (rs : List HttpResponse) :
    (s.get_job_run project_id job_id) jl (r :: rs) =
      ((if r.status_code = 200 then Except.ok (jl r.content)
        else Except.error (PyError.runtimeError r.content)), rs,
       [Event.httpGet (s.getRunUrl project_id job_id)]) :=
  Sinter._get_apply s _ jl r rs

/-- One failed round of `try_get_job_run`: a non-200 response burns one
attempt, logging and sleeping 10 seconds before the remaining attempts run. -/
theorem Sinter.tryGet_round_fail (s : Sinter) (project_id : String) (job_id : Json)
    (jl : String → Json) (k : Nat) (r : HttpResponse) (rest : List HttpResponse)
    (hr : r.status_code ≠ 200) :
    s.try_get_job_run project_id job_id (k + 1) jl (r :: rest) =
      ((s.try_get_job_run project_id job_id k jl rest).1,
       (s.try_get_job_run project_id job_id k jl rest).2.1,
       [Event.httpGet (s.getRunUrl project_id job_id), Event.log (Sinter.tryGetLogMsg job_id),
        Event.sleep 10] ++ (s.try_get_job_run project_id job_id k jl rest).2.2) := by
  conv_lhs => rw [Sinter.try_get_job_run]
  simp only [M.tryCatchRuntime, Sinter.get_job_run_apply, if_neg hr, M.bind_apply, M.emit,
    M.pure_apply]
  rfl

/-- One successful round of `try_get_job_run`: a 200 response returns its
decoded body at once, with no log and no sleep. -/
theorem Sinter.tryGet_round_ok (s : Sinter) (project_id : String) (job_id : Json)
    (jl : String → Json) (k : Nat) (r : HttpResponse) (rest : List HttpResponse)
    (hr : r.status_code = 200) :
    s.try_get_job_run project_id job_id (k + 1) jl (r :: rest) =
      (Except.ok (jl r.content), rest, [Event.httpGet (s.getRunUrl project_id job_id)]) := by
  conv_lhs => rw [Sinter.try_get_job_run]
  simp only [M.tryCatchRuntime, Sinter.get_job_run_apply, if_pos hr]

/-- The three events of one failed fetch attempt. -/
def Sinter.failRound (s : Sinter) (project_id : String) (job_id : Json) : List Event :=
  [Event.httpGet (s.getRunUrl project_id job_id), Event.log (Sinter.tryGetLogMsg job_id),
   Event.sleep 10]

/-- Behavior of `try_get_job_run` when the first `n` pending responses all fail: every one
of the `n` attempts is consumed (each logging and sleeping 10 seconds) and the
terminal `RuntimeError` is raised. -/
theorem Sinter.tryGet_all_fail (s : Sinter) (project_id : String) (job_id : Json)
    (jl : String → Json) :
    ∀ (n : Nat) (rs : List HttpResponse), n ≤ rs.length →
      (∀ r ∈ rs.take n, r.status_code ≠ 200) →
      s.try_get_job_run project_id job_id n jl rs =
        (Except.error (PyError.runtimeError (Sinter.tooManyFailuresMsg job_id)), rs.drop n,
         (List.replicate n (s.failRound project_id job_id)).flatten) := by
  intro n
  induction n with
  | zero =>
    intro rs _ _
    simp [Sinter.try_get_job_run, M.raise]
  | succ k ih =>
    intro rs hlen hfail
    match rs with
    | r :: rest =>
      have hr : r.status_code ≠ 200 := hfail r (by simp)
      have hrest : ∀ x ∈ rest.take k, x.status_code ≠ 200 := fun x hx =>
        hfail x (by simp [hx])
      have hlen2 : k ≤ rest.length := by simpa using hlen
      rw [Sinter.tryGet_round_fail s project_id job_id jl k r rest hr,
        ih rest hlen2 hrest]
      simp [List.replicate_succ, Sinter.failRound]

/-- Behavior of `try_get_job_run` when attempt `k` (0-based, `k < n`) is the first to get
a 200 response: it returns that response's decoded body, consuming `k + 1`
responses and raising nothing. -/
theorem Sinter.tryGet_first_success (s : Sinter) (project_id : String) (job_id : Json)
    (jl : String → Json) :
    ∀ (k n : Nat) (rs : List HttpResponse), k < n →
      (∀ r ∈ rs.take k, r.status_code ≠ 200) →
      ∀ (hk : k < rs.length), (rs.get ⟨k, hk⟩).status_code = 200 →
      s.try_get_job_run project_id job_id n jl rs =
        (Except.ok (jl (rs.get ⟨k, hk⟩).content), rs.drop (k + 1),
         (List.replicate k (s.failRound project_id job_id)).flatten ++
           [Event.httpGet (s.getRunUrl project_id job_id)]) := by
  intro k
  induction k with
  | zero =>
    intro n rs hkn _ hk hr200
    cases rs with
    | nil => simp at hk
    | cons r rest =>
      cases n with
      | zero => omega
      | succ m =>
        rw [Sinter.tryGet_round_ok s project_id job_id jl m r rest hr200]
        simp
  | succ k ih =>
    intro n rs hkn hfail hk hr200
    cases rs with
    | nil => simp at hk
    | cons r rest =>
      cases n with
      | zero => omega
      | succ m =>
        have hr : r.status_code ≠ 200 := hfail r (by simp)
        have hrest : ∀ x ∈ rest.take k, x.status_code ≠ 200 := fun x hx =>
          hfail x (by simp [hx])
        have hkm : k < m := by omega
        have hk2 : k < rest.length := by simpa using hk
        rw [Sinter.tryGet_round_fail s project_id job_id jl m r rest hr,
          ih m rest hkm hrest hk2 hr200]
        simp [List.replicate_succ, Sinter.failRound]

/-! Concrete fixtures used by the witness theorems: a client instance and a
decoder assigning JSON documents to the body strings of the sample responses. -/

def egSinter : Sinter := ⟨"123", "tok"⟩

def egDecoder : String → Json := fun s =>
  if s = "defsBody" then Json.arr [Json.obj [("name", Json.str "nightly"), ("id", Json.num 7)]]
  else if s = "trigBody" then Json.obj [("id", Json.num 42)]
  else if s = "runBody" then Json.obj [("status", Json.num 10)]
  else if s = "runErrBody" then Json.obj [("status", Json.num 20)]
  else if s = "wrapBody" then Json.obj [("data", Json.arr [Json.obj [("name", Json.str "nightly"), ("id", Json.num 7)]])]
  else Json.null

/-- C2: for every job id, `try_get_job_run` with `n` attempts (default 3)
raises its terminal `RuntimeError` after exactly `n` consecutive failed
attempts and not before: if the first 200 response arrives at attempt
`k < n`, it returns that attempt's decoded body without raising. -/
theorem C2_tryGetJobRun_bounded_retry (s : Sinter) (project_id : String) (job_id : Json)
    (jl : String → Json) (n : Nat) (rs : List HttpResponse) :
    (s.try_get_job_run project_id job_id = s.try_get_job_run project_id job_id 3)
    ∧ (n ≤ rs.length → (∀ r ∈ rs.take n, r.status_code ≠ 200) →
        (s.try_get_job_run project_id job_id n jl rs).1 =
          Except.error (PyError.runtimeError (Sinter.tooManyFailuresMsg job_id)))
    ∧ (∀ k, k < n → (∀ r ∈ rs.take k, r.status_code ≠ 200) →
        ∀ (hk : k < rs.length), (rs.get ⟨k, hk⟩).status_code = 200 →
        (s.try_get_job_run project_id job_id n jl rs).1 =
          Except.ok (jl (rs.get ⟨k, hk⟩).content)) := by
  refine ⟨rfl, fun hlen hfail => ?_, fun k hkn hfail hk h200 => ?_⟩
  · rw [Sinter.tryGet_all_fail s project_id job_id jl n rs hlen hfail]
  · rw [Sinter.tryGet_first_success s project_id job_id jl k n rs hkn hfail hk h200]

/-- Witness for C2: three failing responses exhaust the default three
attempts and raise; a first-response 200 returns its body. -/
theorem C2_witness :
    (egSinter.try_get_job_run "9" (Json.num 42) 3 egDecoder
        [⟨500, "a"⟩, ⟨500, "b"⟩, ⟨500, "c"⟩]).1 =
      Except.error
        (PyError.runtimeError "Too many failures (42) while querying for job status")
    ∧ (egSinter.try_get_job_run "9" (Json.num 42) 3 egDecoder [⟨200, "runBody"⟩]).1 =
      Except.ok (Json.obj [("status", Json.num 10)]) :=
  ⟨(C2_tryGetJobRun_bounded_retry egSinter "9" (Json.num 42) egDecoder 3
      [⟨500, "a"⟩, ⟨500, "b"⟩, ⟨500, "c"⟩]).2.1 (by decide) (by decide),
   (C2_tryGetJobRun_bounded_retry egSinter "9" (Json.num 42) egDecoder 3
      [⟨200, "runBody"⟩]).2.2 0 (by decide) (by decide) (by decide) (by decide)⟩

/-- C10: the 10-second sleep happens on every failed attempt of
`try_get_job_run`, the final one included: when all `n` attempts fail the
trace is `n` rounds of request/log/sleep-10, so a 10-second sleep directly
precedes the raise. -/
theorem C10_tryGetJobRun_sleeps_after_last_failure (s : Sinter) (project_id : String)
    (job_id : Json) (jl : String → Json) (n : Nat) (rs : List HttpResponse)
    (hlen : n ≤ rs.length) (hfail : ∀ r ∈ rs.take n, r.status_code ≠ 200) :
    (s.try_get_job_run project_id job_id n jl rs).2.2 =
      (List.replicate n [Event.httpGet (s.getRunUrl project_id job_id),
        Event.log (Sinter.tryGetLogMsg job_id), Event.sleep 10]).flatten
    ∧ (0 < n →
        ((s.try_get_job_run project_id job_id n jl rs).2.2).getLast? =
          some (Event.sleep 10)) := by
  rw [Sinter.tryGet_all_fail s project_id job_id jl n rs hlen hfail]
  refine ⟨rfl, fun hn => ?_⟩
  match n, hn with
  | m + 1, _ =>
    rw [List.replicate_succ']
    simp [Sinter.failRound, List.getLast?_concat]

/-- Witness for C10: with three failing responses the trace ends in a
10-second sleep immediately before the raise. -/
theorem C10_witness :
    (egSinter.try_get_job_run "9" (Json.num 42) 3 egDecoder
        [⟨500, "a"⟩, ⟨500, "b"⟩, ⟨500, "c"⟩]).2.2 =
      (List.replicate 3 [Event.httpGet "https://cloud.getdbt.com/api/v1/accounts/123/projects/9/runs/42/",
        Event.log "Encountered a runtime error while fetching status for 42",
        Event.sleep 10]).flatten
    ∧ (0 < 3 →
        ((egSinter.try_get_job_run "9" (Json.num 42) 3 egDecoder
          [⟨500, "a"⟩, ⟨500, "b"⟩, ⟨500, "c"⟩]).2.2).getLast? = some (Event.sleep 10)) :=
  C10_tryGetJobRun_sleeps_after_last_failure egSinter "9" (Json.num 42) egDecoder 3
    [⟨500, "a"⟩, ⟨500, "b"⟩, ⟨500, "c"⟩] (by decide) (by decide)

/-- C8, counterexample: after exhausting its attempts for job id `"jobA"`,
`try_get_job_run` raises `RuntimeError("Too many failures (jobA) while
querying for job status")` — a message in which the attempt count (3) never
appears: no character of it is `'3'` (or any digit). -/
theorem C8_counterexample :
    (egSinter.try_get_job_run "9" (Json.str "jobA") 3 egDecoder
        [⟨500, "a"⟩, ⟨500, "b"⟩, ⟨500, "c"⟩]).1 =
      Except.error
        (PyError.runtimeError "Too many failures (jobA) while querying for job status")
    ∧ ("Too many failures (jobA) while querying for job status".toList.all
        (fun c => !c.isDigit)) = true := by
  exact ⟨rfl, by decide⟩

/-- C8, amended: when `try_get_job_run` exhausts its attempts, the raised
error's message names the job id, but not the attempt count: the message is
exactly `"Too many failures (" ++ str(job_id) ++ ") while querying for job
status"`, which mentions `max_tries` nowhere. -/
theorem C8_exhaustion_message_names_job_id (s : Sinter) (project_id : String)
    (job_id : Json) (jl : String → Json) (n : Nat) (rs : List HttpResponse)
    (hlen : n ≤ rs.length) (hfail : ∀ r ∈ rs.take n, r.status_code ≠ 200) :
    (s.try_get_job_run project_id job_id n jl rs).1 =
      Except.error (PyError.runtimeError
        ("Too many failures (" ++ job_id.pyStr ++ ") while querying for job status")) := by
  rw [Sinter.tryGet_all_fail s project_id job_id jl n rs hlen hfail]
  rfl

/-- Witness for the amended C8. -/
theorem C8_witness :
    (egSinter.try_get_job_run "9" (Json.str "jobB") 3 egDecoder
        [⟨500, "a"⟩, ⟨500, "b"⟩, ⟨500, "c"⟩]).1 =
      Except.error (PyError.runtimeError
        ("Too many failures (" ++ (Json.str "jobB").pyStr ++ ") while querying for job status")) :=
  C8_exhaustion_message_names_job_id egSinter "9" (Json.str "jobB") egDecoder 3
    [⟨500, "a"⟩, ⟨500, "b"⟩, ⟨500, "c"⟩] (by decide) (by decide)

/-- C4: every status code outside the known set `{1, 2, 3, 10, 20, 30}` is
classified `"Unknown"` rather than failing, and the known codes map to their
fixed labels (1 and 2 to `"Queued"`, 3 to `"Running"`, 10 to `"Success"`,
20 to `"Error"`, 30 to `"Cancelled"`). -/
theorem C4_runStatus_lookup :
    (∀ c : Int, c ∉ ([1, 2, 3, 10, 20, 30] : List Int) → RunStatus.lookup c = "Unknown")
    ∧ RunStatus.lookup 1 = "Queued" ∧ RunStatus.lookup 2 = "Queued"
    ∧ RunStatus.lookup 3 = "Running" ∧ RunStatus.lookup 10 = "Success"
    ∧ RunStatus.lookup 20 = "Error" ∧ RunStatus.lookup 30 = "Cancelled" := by
  refine ⟨fun c hc => ?_, rfl, rfl, rfl, rfl, rfl, rfl⟩
  simp only [List.mem_cons, List.not_mem_nil, or_false, not_or] at hc
  obtain ⟨h1, h2, h3, h10, h20, h30⟩ := hc
  simp [RunStatus.lookup, RunStatus.LOOKUP, RunStatus.queued, RunStatus.dequeued,
    RunStatus.running, RunStatus.success, RunStatus.error, RunStatus.cancelled,
    List.lookup, beq_eq_false_iff_ne.mpr h1, beq_eq_false_iff_ne.mpr h2,
    beq_eq_false_iff_ne.mpr h3, beq_eq_false_iff_ne.mpr h10,
    beq_eq_false_iff_ne.mpr h20, beq_eq_false_iff_ne.mpr h30]

/-- Witness for C4: the unknown code 7 classifies as `"Unknown"`, and 10 as
`"Success"`. -/
theorem C4_witness :
    RunStatus.lookup 7 = "Unknown" ∧ RunStatus.lookup 10 = "Success" :=
  ⟨C4_runStatus_lookup.1 7 (by decide), C4_runStatus_lookup.2.2.2.2.1⟩

/-- C6: each API-client helper performs exactly one HTTP request (consuming
one pending response, recording one request event — no retry at this layer);
a response with the expected status (200 for `_get`, 201 for `_post`) yields
the decoded JSON body, and any other status raises a `RuntimeError` carrying
the raw response body. -/
theorem C6_http_helpers_single_request (s : Sinter) (sfx : String) (jl : String → Json)
    (r : HttpResponse) (rs : List HttpResponse) :
    (s._get sfx) jl (r :: rs) =
      ((if r.status_code = 200 then Except.ok (jl r.content)
        else Except.error (PyError.runtimeError r.content)), rs,
       [Event.httpGet (s.api_base ++ sfx)])
    ∧ (s._post sfx) jl (r :: rs) =
      ((if r.status_code = 201 then Except.ok (jl r.content)
        else Except.error (PyError.runtimeError r.content)), rs,
       [Event.httpPost (s.api_base ++ sfx)]) :=
  ⟨Sinter._get_apply s sfx jl r rs, Sinter._post_apply s sfx jl r rs⟩

/-- C3: one iteration of the `block_until_complete` poll loop. When the
fetched run's status classifies as `Success`, `Error` or `Cancelled`, the loop
returns that run payload at once — after the fetch it only logs, performing no
further 30-second sleep. On any other status it logs, sleeps 30 seconds, and
loops to fetch again. -/
theorem C3_blockUntilComplete_terminal_stops (s : Sinter) (project_id : String)
    (job_id : Json) (jl : String → Json) (rs rs1 : List HttpResponse) (job st : Json)
    (tr : List Event)
    (hfetch : (s.try_get_job_run project_id job_id 3) jl rs = (Except.ok job, rs1, tr))
    (hst : job.getItem "status" = Except.ok st) :
    (RunStatus.lookupJson st ∈ (["Success", "Error", "Cancelled"] : List String) →
      (∀ n : Nat, s.blockUntilCompleteFuel project_id job_id (n + 1) jl rs =
        (Except.ok job, rs1,
         tr ++ [Event.log (Sinter.pollLogMsg job_id (RunStatus.lookupJson st))]))
      ∧ s.block_until_complete project_id job_id jl rs =
        (Except.ok job, rs1,
         tr ++ [Event.log (Sinter.pollLogMsg job_id (RunStatus.lookupJson st))]))
    ∧ (RunStatus.lookupJson st ∉ (["Success", "Error", "Cancelled"] : List String) →
      ∀ n : Nat, s.blockUntilCompleteFuel project_id job_id (n + 1) jl rs =
        ((s.blockUntilCompleteFuel project_id job_id n jl rs1).1,
         (s.blockUntilCompleteFuel project_id job_id n jl rs1).2.1,
         tr ++ [Event.log (Sinter.pollLogMsg job_id (RunStatus.lookupJson st)),
           Event.sleep 30] ++ (s.blockUntilCompleteFuel project_id job_id n jl rs1).2.2)) := by
  have step : ∀ n : Nat, s.blockUntilCompleteFuel project_id job_id (n + 1) jl rs =
      (if RunStatus.lookupJson st ∈ (["Success", "Error", "Cancelled"] : List String) then
        (Except.ok job, rs1,
         tr ++ [Event.log (Sinter.pollLogMsg job_id (RunStatus.lookupJson st))])
      else
        ((s.blockUntilCompleteFuel project_id job_id n jl rs1).1,
         (s.blockUntilCompleteFuel project_id job_id n jl rs1).2.1,
         tr ++ [Event.log (Sinter.pollLogMsg job_id (RunStatus.lookupJson st)),
           Event.sleep 30] ++ (s.blockUntilCompleteFuel project_id job_id n jl rs1).2.2)) := by
    intro n
    conv_lhs => rw [Sinter.blockUntilCompleteFuel]
    simp only [M.bind_apply, hfetch, hst, M.liftExcept, M.pure_apply, M.bind, M.pure, M.emit]
    by_cases hmem : RunStatus.lookupJson st ∈ (["Success", "Error", "Cancelled"] : List String)
    · have hd : RunStatus.lookupJson st = "Success" ∨ RunStatus.lookupJson st = "Error" ∨
          RunStatus.lookupJson st = "Cancelled" := by simpa using hmem
      simp [hmem, hd, M.pure, M.bind_apply, M.emit]
    · have hd : ¬(RunStatus.lookupJson st = "Success" ∨ RunStatus.lookupJson st = "Error" ∨
          RunStatus.lookupJson st = "Cancelled") := by simpa using hmem
      simp [hmem, hd, M.pure, M.bind_apply, M.emit]
  constructor
  · intro hmem
    have hfix : ∀ n : Nat, s.blockUntilCompleteFuel project_id job_id (n + 1) jl rs =
        (Except.ok job, rs1,
         tr ++ [Event.log (Sinter.pollLogMsg job_id (RunStatus.lookupJson st))]) := by
      intro n; rw [step n, if_pos hmem]
    exact ⟨hfix, by
      show s.blockUntilCompleteFuel project_id job_id (rs.length + 1) jl rs = _
      exact hfix rs.length⟩
  · intro hmem n
    rw [step n, if_neg hmem]

/-- Witness for C3: a first fetch returning status 10 (`Success`) ends the
poll loop at once, with no 30-second sleep in the trace. -/
theorem C3_witness :
    egSinter.block_until_complete "9" (Json.num 42) egDecoder [⟨200, "runBody"⟩] =
      (Except.ok (Json.obj [("status", Json.num 10)]), [],
       [Event.httpGet "https://cloud.getdbt.com/api/v1/accounts/123/projects/9/runs/42/",
        Event.log "JOB: 42, STATUS: Success"]) :=
  ((C3_blockUntilComplete_terminal_stops egSinter "9" (Json.num 42) egDecoder
      [⟨200, "runBody"⟩] [] (Json.obj [("status", Json.num 10)]) (Json.num 10)
      [Event.httpGet "https://cloud.getdbt.com/api/v1/accounts/123/projects/9/runs/42/"]
      rfl rfl).1 (by decide)).2

/-- The URL of the `list_job_definitions` request. -/
def Sinter.listDefsUrl (s : Sinter) (project_id : String) : String :=
  s.api_base ++ ("/accounts/" ++ s.account_id ++ "/projects/" ++ project_id ++ "/definitions/")

/-- The URL of the `trigger_job_run` request. -/
def Sinter.triggerRunUrl (s : Sinter) (project_id : String) (definition_id : Json) : String :=
  s.api_base ++ ("/accounts/" ++ s.account_id ++ "/projects/" ++ project_id ++
    "/definitions/" ++ definition_id.pyStr ++ "/runs/")

/-- Behavior of `run_job` when the name filter keeps a number of definitions other than
one: the `AirflowException` is raised right after the listing request, with
the match count and requested name in its message. -/
theorem Sinter.run_job_bad_match_count (s : Sinter) (project_id job_name : String)
    (jl : String → Json) (rs rs1 : List HttpResponse) (defs : Json) (ds jds : List Json)
    (tr1 : List Event)
    (hdefs : (s.list_job_definitions project_id) jl rs = (Except.ok defs, rs1, tr1))
    (hiter : defs.pyIter = Except.ok ds)
    (hfilter : Sinter.filterDefsByName job_name ds = Except.ok jds)
    (hlen : jds.length ≠ 1) :
    (s.run_job project_id job_name) jl rs =
      (Except.error (PyError.airflowException
        (toString jds.length ++ " jobs found for " ++ job_name)), rs1, tr1) := by
  conv_lhs => rw [Sinter.run_job]
  simp [M.bind_apply, M.bind, hdefs, hiter, hfilter, M.liftExcept, M.pure, M.raise, hlen]

/-- Behavior of `run_job` when the name filter keeps exactly one definition: the
definition's id is triggered, the run is polled, and the final status decides
between returning the payload and raising. -/
theorem Sinter.run_job_single_match (s : Sinter) (project_id job_name : String)
    (jl : String → Json) (rs rs1 rs2 rs3 : List HttpResponse) (defs : Json)
    (ds : List Json) (job_def defId trigger_resp job_id job st : Json)
    (tr1 tr2 tr3 : List Event)
    (hdefs : (s.list_job_definitions project_id) jl rs = (Except.ok defs, rs1, tr1))
    (hiter : defs.pyIter = Except.ok ds)
    (hfilter : Sinter.filterDefsByName job_name ds = Except.ok [job_def])
    (hid : job_def.getItem "id" = Except.ok defId)
    (htrig : (s.trigger_job_run project_id defId) jl rs1 = (Except.ok trigger_resp, rs2, tr2))
    (hjid : trigger_resp.getItem "id" = Except.ok job_id)
    (hblock : (s.block_until_complete project_id job_id) jl rs2 = (Except.ok job, rs3, tr3))
    (hstat : job.getItem "status" = Except.ok st) :
    (s.run_job project_id job_name) jl rs =
      ((if RunStatus.lookupJson st = "Success" then Except.ok job
        else Except.error (PyError.airflowException
          ("Run failed with status: " ++ RunStatus.lookupJson st))),
       rs3, tr1 ++ tr2 ++ tr3) := by
  conv_lhs => rw [Sinter.run_job]
  by_cases hs : RunStatus.lookupJson st = "Success" <;>
    simp [M.bind_apply, M.bind, hdefs, hiter, hfilter, hid, htrig, hjid, hblock, hstat,
      M.liftExcept, M.pure, M.raise, hs]

/-- C1: when exactly one job definition matches the requested name, `run_job`
triggers a run of that definition (the trace of the trigger step is exactly
one POST to that definition's runs URL), polls it to completion, and returns
the final run payload when the terminal status classifies as `Success`. -/
theorem C1_run_job_success (s : Sinter) (project_id job_name : String)
    (jl : String → Json) (rs rs1 rs2 rs3 : List HttpResponse) (defs : Json)
    (ds : List Json) (job_def defId trigger_resp job_id job st : Json)
    (tr1 tr2 tr3 : List Event)
    (hdefs : (s.list_job_definitions project_id) jl rs = (Except.ok defs, rs1, tr1))
    (hiter : defs.pyIter = Except.ok ds)
    (hfilter : Sinter.filterDefsByName job_name ds = Except.ok [job_def])
    (hid : job_def.getItem "id" = Except.ok defId)
    (htrig : (s.trigger_job_run project_id defId) jl rs1 = (Except.ok trigger_resp, rs2, tr2))
    (hjid : trigger_resp.getItem "id" = Except.ok job_id)
    (hblock : (s.block_until_complete project_id job_id) jl rs2 = (Except.ok job, rs3, tr3))
    (hstat : job.getItem "status" = Except.ok st)
    (hsucc : RunStatus.lookupJson st = "Success") :
    (s.run_job project_id job_name) jl rs = (Except.ok job, rs3, tr1 ++ tr2 ++ tr3)
    ∧ tr2 = [Event.httpPost (s.triggerRunUrl project_id defId)] := by
  have h2 : ((s.trigger_job_run project_id defId) jl rs1).2.2 =
      [Event.httpPost (s.triggerRunUrl project_id defId)] := Sinter._post_trace s _ jl rs1
  rw [htrig] at h2
  refine ⟨?_, h2⟩
  rw [Sinter.run_job_single_match s project_id job_name jl rs rs1 rs2 rs3 defs ds job_def
    defId trigger_resp job_id job st tr1 tr2 tr3 hdefs hiter hfilter hid htrig hjid hblock
    hstat, if_pos hsucc]

/-- Witness for C1: a one-definition project, a 201 trigger response, and a
first poll returning status 10 end in the run payload being returned. -/
theorem C1_witness :
    egSinter.run_job "9" "nightly" egDecoder
        [⟨200, "defsBody"⟩, ⟨201, "trigBody"⟩, ⟨200, "runBody"⟩] =
      (Except.ok (Json.obj [("status", Json.num 10)]), [],
       [Event.httpGet "https://cloud.getdbt.com/api/v1/accounts/123/projects/9/definitions/",
        Event.httpPost "https://cloud.getdbt.com/api/v1/accounts/123/projects/9/definitions/7/runs/",
        Event.httpGet "https://cloud.getdbt.com/api/v1/accounts/123/projects/9/runs/42/",
        Event.log "JOB: 42, STATUS: Success"])
    ∧ [Event.httpPost "https://cloud.getdbt.com/api/v1/accounts/123/projects/9/definitions/7/runs/"] =
      [Event.httpPost (egSinter.triggerRunUrl "9" (Json.num 7))] :=
  C1_run_job_success egSinter "9" "nightly" egDecoder
    [⟨200, "defsBody"⟩, ⟨201, "trigBody"⟩, ⟨200, "runBody"⟩]
    [⟨201, "trigBody"⟩, ⟨200, "runBody"⟩] [⟨200, "runBody"⟩] []
    (Json.arr [Json.obj [("name", Json.str "nightly"), ("id", Json.num 7)]])
    [Json.obj [("name", Json.str "nightly"), ("id", Json.num 7)]]
    (Json.obj [("name", Json.str "nightly"), ("id", Json.num 7)])
    (Json.num 7) (Json.obj [("id", Json.num 42)]) (Json.num 42)
    (Json.obj [("status", Json.num 10)]) (Json.num 10)
    [Event.httpGet "https://cloud.getdbt.com/api/v1/accounts/123/projects/9/definitions/"]
    [Event.httpPost "https://cloud.getdbt.com/api/v1/accounts/123/projects/9/definitions/7/runs/"]
    [Event.httpGet "https://cloud.getdbt.com/api/v1/accounts/123/projects/9/runs/42/",
     Event.log "JOB: 42, STATUS: Success"]
    rfl rfl rfl rfl rfl rfl rfl rfl rfl

/-- C5: when the name filter keeps zero or several definitions, `run_job`
raises the `AirflowException` naming the match count before issuing any
trigger request: its whole trace is the single listing GET, so no run is ever
created. -/
theorem C5_run_job_bad_match_raises_before_trigger (s : Sinter)
    (project_id job_name : String) (jl : String → Json) (rs rs1 : List HttpResponse)
    (defs : Json) (ds jds : List Json) (tr1 : List Event)
    (hdefs : (s.list_job_definitions project_id) jl rs = (Except.ok defs, rs1, tr1))
    (hiter : defs.pyIter = Except.ok ds)
    (hfilter : Sinter.filterDefsByName job_name ds = Except.ok jds)
    (hlen : jds.length ≠ 1) :
    (s.run_job project_id job_name) jl rs =
      (Except.error (PyError.airflowException
        (toString jds.length ++ " jobs found for " ++ job_name)), rs1, tr1)
    ∧ tr1 = [Event.httpGet (s.listDefsUrl project_id)] := by
  have h1 : ((s.list_job_definitions project_id) jl rs).2.2 =
      [Event.httpGet (s.listDefsUrl project_id)] := Sinter._get_trace s _ jl rs
  rw [hdefs] at h1
  exact ⟨Sinter.run_job_bad_match_count s project_id job_name jl rs rs1 defs ds jds tr1
    hdefs hiter hfilter hlen, h1⟩

/-- Witness for C5: no definition named `"other"` exists, so `run_job` raises
`"0 jobs found for other"` with nothing but the listing GET in its trace. -/
theorem C5_witness :
    egSinter.run_job "9" "other" egDecoder [⟨200, "defsBody"⟩] =
      (Except.error (PyError.airflowException "0 jobs found for other"), [],
       [Event.httpGet "https://cloud.getdbt.com/api/v1/accounts/123/projects/9/definitions/"])
    ∧ [Event.httpGet "https://cloud.getdbt.com/api/v1/accounts/123/projects/9/definitions/"] =
      [Event.httpGet (egSinter.listDefsUrl "9")] :=
  C5_run_job_bad_match_raises_before_trigger egSinter "9" "other" egDecoder
    [⟨200, "defsBody"⟩] []
    (Json.arr [Json.obj [("name", Json.str "nightly"), ("id", Json.num 7)]])
    [Json.obj [("name", Json.str "nightly"), ("id", Json.num 7)]] []
    [Event.httpGet "https://cloud.getdbt.com/api/v1/accounts/123/projects/9/definitions/"]
    rfl rfl rfl (by decide)

/-- C7: when polling ends in a terminal status other than `Success` (`Error`
or `Cancelled`), `run_job` raises an `AirflowException` whose message carries
that status's name; the run payload is not returned. -/
theorem C7_run_job_failure_status_in_message (s : Sinter) (project_id job_name : String)
    (jl : String → Json) (rs rs1 rs2 rs3 : List HttpResponse) (defs : Json)
    (ds : List Json) (job_def defId trigger_resp job_id job st : Json)
    (tr1 tr2 tr3 : List Event)
    (hdefs : (s.list_job_definitions project_id) jl rs = (Except.ok defs, rs1, tr1))
    (hiter : defs.pyIter = Except.ok ds)
    (hfilter : Sinter.filterDefsByName job_name ds = Except.ok [job_def])
    (hid : job_def.getItem "id" = Except.ok defId)
    (htrig : (s.trigger_job_run project_id defId) jl rs1 = (Except.ok trigger_resp, rs2, tr2))
    (hjid : trigger_resp.getItem "id" = Except.ok job_id)
    (hblock : (s.block_until_complete project_id job_id) jl rs2 = (Except.ok job, rs3, tr3))
    (hstat : job.getItem "status" = Except.ok st)
    (hfail : RunStatus.lookupJson st = "Error" ∨ RunStatus.lookupJson st = "Cancelled") :
    (s.run_job project_id job_name) jl rs =
      (Except.error (PyError.airflowException
        ("Run failed with status: " ++ RunStatus.lookupJson st)), rs3,
       tr1 ++ tr2 ++ tr3) := by
  have hne : RunStatus.lookupJson st ≠ "Success" := by
    rcases hfail with h | h <;> simp [h]
  rw [Sinter.run_job_single_match s project_id job_name jl rs rs1 rs2 rs3 defs ds job_def
    defId trigger_resp job_id job st tr1 tr2 tr3 hdefs hiter hfilter hid htrig hjid hblock
    hstat, if_neg hne]

/-- Witness for C7: a poll ending in status 20 makes `run_job` raise
`"Run failed with status: Error"`. -/
theorem C7_witness :
    egSinter.run_job "9" "nightly" egDecoder
        [⟨200, "defsBody"⟩, ⟨201, "trigBody"⟩, ⟨200, "runErrBody"⟩] =
      (Except.error (PyError.airflowException "Run failed with status: Error"), [],
       [Event.httpGet "https://cloud.getdbt.com/api/v1/accounts/123/projects/9/definitions/",
        Event.httpPost "https://cloud.getdbt.com/api/v1/accounts/123/projects/9/definitions/7/runs/",
        Event.httpGet "https://cloud.getdbt.com/api/v1/accounts/123/projects/9/runs/42/",
        Event.log "JOB: 42, STATUS: Error"]) :=
  C7_run_job_failure_status_in_message egSinter "9" "nightly" egDecoder
    [⟨200, "defsBody"⟩, ⟨201, "trigBody"⟩, ⟨200, "runErrBody"⟩]
    [⟨201, "trigBody"⟩, ⟨200, "runErrBody"⟩] [⟨200, "runErrBody"⟩] []
    (Json.arr [Json.obj [("name", Json.str "nightly"), ("id", Json.num 7)]])
    [Json.obj [("name", Json.str "nightly"), ("id", Json.num 7)]]
    (Json.obj [("name", Json.str "nightly"), ("id", Json.num 7)])
    (Json.num 7) (Json.obj [("id", Json.num 42)]) (Json.num 42)
    (Json.obj [("status", Json.num 20)]) (Json.num 20)
    [Event.httpGet "https://cloud.getdbt.com/api/v1/accounts/123/projects/9/definitions/"]
    [Event.httpPost "https://cloud.getdbt.com/api/v1/accounts/123/projects/9/definitions/7/runs/"]
    [Event.httpGet "https://cloud.getdbt.com/api/v1/accounts/123/projects/9/runs/42/",
     Event.log "JOB: 42, STATUS: Error"]
    rfl rfl rfl rfl rfl rfl rfl rfl (Or.inl rfl)

/-- C9: on a 200 response, `list_job_definitions` returns the entire decoded
body, while `list_projects` and `get_project` return only its `'data'` field;
consequently `run_job` iterates the raw definitions response itself — on the
usual `{"data": [...]}` envelope it walks the dict's keys, and `d['name']` on
the key string `"data"` raises a `TypeError` instead of filtering the
definition records. -/
theorem C9_list_job_definitions_not_unwrapped (s : Sinter) (project_id job_name : String)
    (jl : String → Json) (r : HttpResponse) (rs : List HttpResponse)
    (h200 : r.status_code = 200) :
    ((s.list_job_definitions project_id) jl (r :: rs)).1 = Except.ok (jl r.content)
    ∧ ((s.list_projects) jl (r :: rs)).1 = (jl r.content).getItem "data"
    ∧ ((s.get_project project_id) jl (r :: rs)).1 = (jl r.content).getItem "data"
    ∧ (∀ x : Json, jl r.content = Json.obj [("data", x)] →
        ((s.run_job project_id job_name) jl (r :: rs)).1 =
          Except.error (PyError.typeError "name")) := by
  refine ⟨?_, ?_, ?_, ?_⟩
  · rw [show s.list_job_definitions project_id = s._get ("/accounts/" ++ s.account_id ++
      "/projects/" ++ project_id ++ "/definitions/") from rfl, Sinter._get_apply,
      if_pos h200]
  · cases hgi : (jl r.content).getItem "data" with
    | ok d =>
      simp [Sinter.list_projects, M.bind_apply, Sinter._get_apply, h200, hgi,
        M.liftExcept, M.pure, M.raise]
    | error e =>
      simp [Sinter.list_projects, M.bind_apply, Sinter._get_apply, h200, hgi,
        M.liftExcept, M.pure, M.raise]
  · cases hgi : (jl r.content).getItem "data" with
    | ok d =>
      simp [Sinter.get_project, M.bind_apply, Sinter._get_apply, h200, hgi,
        M.liftExcept, M.pure, M.raise]
    | error e =>
      simp [Sinter.get_project, M.bind_apply, Sinter._get_apply, h200, hgi,
        M.liftExcept, M.pure, M.raise]
  · intro x hwrap
    have hdefs : (s.list_job_definitions project_id) jl (r :: rs) =
        (Except.ok (Json.obj [("data", x)]), rs,
         [Event.httpGet (s.listDefsUrl project_id)]) := by
      rw [show s.list_job_definitions project_id = s._get ("/accounts/" ++ s.account_id ++
        "/projects/" ++ project_id ++ "/definitions/") from rfl, Sinter._get_apply,
        if_pos h200, hwrap]
      rfl
    conv_lhs => rw [Sinter.run_job]
    simp [M.bind_apply, M.bind, hdefs, Json.pyIter, Sinter.filterDefsByName,
      Json.getItem, M.liftExcept, M.pure, M.raise, Except.instMonad, Except.bind]

/-- Witness for C9: with the realistic `{"data": [definition]}` envelope the
filter crashes with a `TypeError` rather than matching the definition. -/
theorem C9_witness :
    ((egSinter.list_job_definitions "9") egDecoder [⟨200, "wrapBody"⟩]).1 =
      Except.ok (Json.obj [("data",
        Json.arr [Json.obj [("name", Json.str "nightly"), ("id", Json.num 7)]])])
    ∧ ((egSinter.list_projects) egDecoder [⟨200, "wrapBody"⟩]).1 =
      (Json.obj [("data",
        Json.arr [Json.obj [("name", Json.str "nightly"), ("id", Json.num 7)]])]).getItem "data"
    ∧ ((egSinter.get_project "9") egDecoder [⟨200, "wrapBody"⟩]).1 =
      (Json.obj [("data",
        Json.arr [Json.obj [("name", Json.str "nightly"), ("id", Json.num 7)]])]).getItem "data"
    ∧ (∀ x : Json, egDecoder "wrapBody" = Json.obj [("data", x)] →
        ((egSinter.run_job "9" "nightly") egDecoder [⟨200, "wrapBody"⟩]).1 =
          Except.error (PyError.typeError "name")) :=
  C9_list_job_definitions_not_unwrapped egSinter "9" "nightly" egDecoder
    ⟨200, "wrapBody"⟩ [] rfl
